import Mathlib

/-!
Verification of the MetaWorkplaceExport repository's core export pipeline.

Shallow embedding of `src/scripts/export.py` and
`src/scripts/workplace_export.py`: the cursor-following paginator
(`iter_exports` / `paged_get`), the retrying download engine
(`download_file`), and the orchestrators (`process_exports` /
`download_export_files`).  JSON records are embedded as structures of
optional strings; Python string truthiness (`if x:` is false for both
`None` and `""`) is modelled by `truthy` below.
-/

/-- Python truthiness of an optional string: `None` and `""` are falsy,
every non-empty string is truthy.  Used wherever the source tests a
JSON field with `if x:` / `while url:` / `x or y`. -/
def truthy : Option String → Bool
  | none => false
  | some s => !s.isEmpty

/-- Decidable equality for `Except`, used to evaluate the embeddings on
concrete inputs. -/
instance {ε α : Type} [DecidableEq ε] [DecidableEq α] :
    DecidableEq (Except ε α) := fun a b =>
  match a, b with
  | .error e1, .error e2 =>
    if h : e1 = e2 then isTrue (by rw [h])
    else isFalse (by intro hEq; cases hEq; exact h rfl)
  | .ok x, .ok y =>
    if h : x = y then isTrue (by rw [h])
    else isFalse (by intro hEq; cases hEq; exact h rfl)
  | .error _, .ok _ => isFalse (by intro hEq; cases hEq)
  | .ok _, .error _ => isFalse (by intro hEq; cases hEq)

/-- One paginated JSON response: the `data` array (records abstracted as
an arbitrary type) and the `paging.next` field (`none` when `paging` or
`paging.next` is missing). -/
structure Page (α : Type) where
  data : List α
  next : Option String
deriving Repr, DecidableEq

/-- One HTTP GET issued by the pagination loop: the URL it was issued
against and the query params passed (`none` models Python `params=None`). -/
structure Request (π : Type) where
  url : Option String
  params : Option π
deriving Repr, DecidableEq

/-- Embedding of the shared pagination loop of `iter_exports`
(`export.py` lines 131-137) and `paged_get` (`workplace_export.py`
lines 49-59):

    while url:
        payload = graph_get(session, url, params=params)
        params = None  # The paging.next URL already contains the params.
        for export in payload.get("data", []):
            yield export
        url = payload.get("paging", {}).get("next")

`pages` is the finite sequence of responses the server returns to the
successive GETs (the n-th GET is answered by the n-th page).  Returns the
records yielded, in order, paired with the list of requests issued. -/
def paged_get {α π : Type} : List (Page α) → Option String → Option π →
    List α × List (Request π)
  | [], _, _ => ([], [])
  | p :: rest, url, params =>
    if truthy url then
      let pr := paged_get rest p.next none
      (p.data ++ pr.1, ⟨url, params⟩ :: pr.2)
    else ([], [])

/-- A finite response sequence is well formed when every response but the
last carries a truthy `paging.next` cursor and the last does not: exactly
the situations in which the loop's fetches are all answered and the loop
stops by itself at the final page. -/
def wfPages {α : Type} : List (Page α) → Bool
  | [] => true
  | [p] => !truthy p.next
  | p :: q :: rest => truthy p.next && wfPages (q :: rest)

theorem paged_get_cons_truthy {α π : Type} (p : Page α) (rest : List (Page α))
    (url : Option String) (params : Option π) (h : truthy url = true) :
    paged_get (p :: rest) url params =
      (p.data ++ (paged_get rest p.next (none : Option π)).1,
       ⟨url, params⟩ :: (paged_get rest p.next (none : Option π)).2) := by
  simp [paged_get, h]

theorem paged_get_cons_falsy {α π : Type} (p : Page α) (rest : List (Page α))
    (url : Option String) (params : Option π) (h : truthy url = false) :
    paged_get (p :: rest) url params = ([], []) := by
  simp [paged_get, h]

/-- Helper: on a well-formed response sequence and a truthy initial URL the
loop yields the concatenation of the pages' `data` arrays and issues one
request per page. -/
theorem paged_get_join {α π : Type} : ∀ (pages : List (Page α))
    (url : Option String) (params : Option π),
    truthy url = true → wfPages pages = true →
    (paged_get pages url params).1 = (pages.map Page.data).flatten ∧
    (paged_get pages url params).2.length = pages.length := by
  intro pages
  induction pages with
  | nil => intro url params _ _; simp [paged_get]
  | cons p rest ih =>
    intro url params hurl hwf
    rw [paged_get_cons_truthy p rest url params hurl]
    cases rest with
    | nil => simp [paged_get]
    | cons q rest' =>
      simp only [wfPages, Bool.and_eq_true] at hwf
      obtain ⟨hnext, hwf'⟩ := hwf
      have := ih p.next (none : Option π) hnext hwf'
      simp [this.1, this.2]

/-- C2: For every finite sequence of paginated responses, the paginator
(`iter_exports` / `paged_get`) yields exactly the concatenation of each
page's `data` array in page order, and terminates precisely when a
response's `paging.next` is absent: it issues exactly one fetch per page,
stopping at the page whose cursor no longer carries a next URL. -/
theorem C2_paginator_concatenation {α π : Type} (pages : List (Page α))
    (url : Option String) (params : Option π)
    (hurl : truthy url = true) (hwf : wfPages pages = true) :
    (paged_get pages url params).1 = (pages.map Page.data).flatten ∧
    (paged_get pages url params).2.length = pages.length :=
  paged_get_join pages url params hurl hwf

/-- Witness for C2 at a concrete two-page response sequence. -/
theorem C2_paginator_concatenation_witness :
    (paged_get [⟨([1, 2] : List Nat), some "u2"⟩, ⟨[3], none⟩] (some "u1")
        (some "p")).1 =
      (([⟨([1, 2] : List Nat), some "u2"⟩, ⟨[3], none⟩] :
        List (Page Nat)).map Page.data).flatten ∧
    (paged_get [⟨([1, 2] : List Nat), some "u2"⟩, ⟨[3], none⟩] (some "u1")
        (some "p")).2.length =
      ([⟨([1, 2] : List Nat), some "u2"⟩, ⟨[3], none⟩] :
        List (Page Nat)).length :=
  C2_paginator_concatenation
    [(⟨[1, 2], some "u2"⟩ : Page Nat), ⟨[3], none⟩] (some "u1")
    (some "p") (by decide) (by decide)

/-- Helper: the first request of a pagination run carries the initial URL
and the initial params. -/
theorem paged_get_first {α π : Type} (pages : List (Page α))
    (url : Option String) (params : Option π) (r : Request π)
    (h : (paged_get pages url params).2[0]? = some r) :
    r.params = params ∧ r.url = url := by
  cases pages with
  | nil => simp [paged_get] at h
  | cons p rest =>
    by_cases hurl : truthy url = true
    · rw [paged_get_cons_truthy p rest url params hurl] at h
      simp at h
      exact ⟨by simp [← h], by simp [← h]⟩
    · rw [paged_get_cons_falsy p rest url params (by simpa using hurl)] at h
      simp at h

/-- Helper: every request the pagination loop issues after the first
carries `params = None` and is issued against the previous response's
`paging.next` cursor. -/
theorem paged_get_requests {α π : Type} : ∀ (pages : List (Page α))
    (url : Option String) (params : Option π) (i : Nat) (r : Request π),
    (paged_get pages url params).2[i]? = some r → 0 < i →
    r.params = none ∧ ∃ p, pages[i - 1]? = some p ∧ r.url = p.next := by
  intro pages
  induction pages with
  | nil => intro url params i r h hi; simp [paged_get] at h
  | cons p rest ih =>
    intro url params i r h hi
    by_cases hurl : truthy url = true
    · rw [paged_get_cons_truthy p rest url params hurl] at h
      cases i with
      | zero => omega
      | succ j =>
        have htail : (paged_get rest p.next (none : Option π)).2[j]? = some r := by
          simpa using h
        cases j with
        | zero =>
          have := paged_get_first rest p.next (none : Option π) r htail
          exact ⟨this.1, ⟨p, by simp, this.2⟩⟩
        | succ k =>
          have := ih p.next (none : Option π) (k + 1) r htail (Nat.succ_pos k)
          obtain ⟨hparams, q, hq, hurl'⟩ := this
          exact ⟨hparams, ⟨q, by simpa using hq, hurl'⟩⟩
    · rw [paged_get_cons_falsy p rest url params (by simpa using hurl)] at h
      simp at h

/-- C3: the initial query parameters are sent only with the first request
of a pagination sequence: the first request carries them, and every
subsequent request is issued against the previous response's
`paging.next` cursor URL with `params = None`. -/
theorem C3_params_only_first {α π : Type} (pages : List (Page α))
    (url : Option String) (params : Option π) :
    (∀ r : Request π, (paged_get pages url params).2[0]? = some r →
      r.params = params ∧ r.url = url) ∧
    (∀ (i : Nat) (r : Request π),
      (paged_get pages url params).2[i]? = some r → 0 < i →
      r.params = none ∧ ∃ p, pages[i - 1]? = some p ∧ r.url = p.next) :=
  ⟨fun r h => paged_get_first pages url params r h,
   fun i r h hi => paged_get_requests pages url params i r h hi⟩

/-- Witness for C3: on a concrete two-page run, the second request carries
no params and targets the first page's cursor. -/
theorem C3_params_only_first_witness :
    (Request.params ⟨some "u2", (none : Option String)⟩ = none ∧
      ∃ p, ([⟨([7] : List Nat), some "u2"⟩, ⟨[8], none⟩] :
          List (Page Nat))[1 - 1]? = some p ∧
        Request.url ⟨some "u2", (none : Option String)⟩ = p.next) :=
  (C3_params_only_first [⟨([7] : List Nat), some "u2"⟩, ⟨[8], none⟩]
      (some "u1") (some "p")).2 1 ⟨some "u2", none⟩ (by decide) (by decide)

/-! ## Download engine (`export.py` `download_file`, lines 156-198) -/

/-- Transport-level outcome of one attempt of the download loop body:
`netFail` is a `requests.RequestException` raised before the destination
is opened (connection error or non-2xx from `raise_for_status`, so no
bytes are written); `midFail bs` is a stream error after the prefix `bs`
was already written to the destination; `body bs` is a complete 2xx
stream whose full content is `bs`. -/
inductive AttemptOutcome where
  | netFail
  | midFail (bs : List Nat)
  | body (bs : List Nat)
deriving Repr, DecidableEq

/-- The retryable exceptions caught by the loop's `except` clause:
`requests.RequestException` and the `ExportDownloadError` raised on a
checksum mismatch (which records the expected and computed digests). -/
inductive DlErr where
  | requestError
  | checksumMismatch (expected got : String)
deriving Repr, DecidableEq

/-- The checksum verification performed after a complete stream
(`export.py` lines 171 and 178-183): a digest is only computed and
compared when the `checksum` argument is truthy, and the comparison is
case-insensitive; a mismatch raises `ExportDownloadError`.  `hexdigest`
abstracts `hashlib`'s hex digest of the downloaded bytes. -/
def attemptResult (hexdigest : List Nat → String) (checksum : Option String)
    (bs : List Nat) : Except DlErr Unit :=
  if truthy checksum then
    let c := checksum.getD ""
    if (hexdigest bs).toLower == c.toLower then Except.ok ()
    else Except.error (.checksumMismatch c (hexdigest bs))
  else Except.ok ()

/-- Whether one attempt of the loop body returns without raising: the
stream must complete and the checksum check (when any) must pass. -/
def attemptOk (hexdigest : List Nat → String) (checksum : Option String) :
    AttemptOutcome → Bool
  | .netFail => false
  | .midFail _ => false
  | .body bs =>
    match attemptResult hexdigest checksum bs with
    | .ok _ => true
    | .error _ => false

/-- Embedding of the retry loop of `download_file` (`export.py` lines
164-198).  `outcome i` is the transport's behaviour on the attempt with
prior-failure count `i`; `file` is the destination's current content
(`none` when absent).  Each attempt that reaches the destination opens it
with `open("wb")`, so a written state is always `some bs`, never an
append.  On failure the attempt counter is incremented and compared
against `maxRetries`; past the budget the last cause is wrapped and
re-raised, together with the number of attempts made.  On success the
result carries the number of attempts made.  Returns the result paired
with the destination's final content. -/
def download_file (outcome : Nat → AttemptOutcome)
    (hexdigest : List Nat → String) (checksum : Option String)
    (maxRetries attempt : Nat) (file : Option (List Nat)) :
    Except (DlErr × Nat) Nat × Option (List Nat) :=
  match outcome attempt with
  | .netFail =>
    if _h : maxRetries < attempt + 1 then
      (.error (.requestError, attempt + 1), file)
    else
      download_file outcome hexdigest checksum maxRetries (attempt + 1) file
  | .midFail bs =>
    if _h : maxRetries < attempt + 1 then
      (.error (.requestError, attempt + 1), some bs)
    else
      download_file outcome hexdigest checksum maxRetries (attempt + 1) (some bs)
  | .body bs =>
    match attemptResult hexdigest checksum bs with
    | .ok _ => (.ok (attempt + 1), some bs)
    | .error e =>
      if _h : maxRetries < attempt + 1 then
        (.error (e, attempt + 1), some bs)
      else
        download_file outcome hexdigest checksum maxRetries (attempt + 1) (some bs)
termination_by maxRetries + 1 - attempt
decreasing_by all_goals omega

/-- Helper: when the first `n` attempts starting at prior-failure count
`attempt` fail and the next one succeeds within the budget, the loop
returns success with the corresponding attempt count. -/
theorem download_file_ok (outcome : Nat → AttemptOutcome)
    (hexdigest : List Nat → String) (checksum : Option String)
    (maxRetries : Nat) : ∀ (n attempt : Nat) (file : Option (List Nat)),
    (∀ i, i < n → attemptOk hexdigest checksum (outcome (attempt + i)) = false) →
    attemptOk hexdigest checksum (outcome (attempt + n)) = true →
    attempt + n ≤ maxRetries →
    (download_file outcome hexdigest checksum maxRetries attempt file).1 =
      .ok (attempt + n + 1) := by
  intro n
  induction n with
  | zero =>
    intro attempt file _ hok _
    rw [Nat.add_zero] at hok
    rw [download_file]
    cases houtcome : outcome attempt with
    | netFail => rw [houtcome] at hok; simp [attemptOk] at hok
    | midFail bs => rw [houtcome] at hok; simp [attemptOk] at hok
    | body bs =>
      rw [houtcome] at hok
      cases hres : attemptResult hexdigest checksum bs with
      | ok u => simp [houtcome, hres]
      | error e => simp [attemptOk, hres] at hok
  | succ m ih =>
    intro attempt file hfail hok hle
    have h0 : attemptOk hexdigest checksum (outcome attempt) = false := by
      simpa using hfail 0 (Nat.succ_pos m)
    have hguard : ¬ maxRetries < attempt + 1 := by omega
    have hfail' : ∀ i, i < m →
        attemptOk hexdigest checksum (outcome (attempt + 1 + i)) = false := by
      intro i hi
      have := hfail (i + 1) (by omega)
      have harith : attempt + (i + 1) = attempt + 1 + i := by omega
      rwa [harith] at this
    have hok' : attemptOk hexdigest checksum (outcome (attempt + 1 + m)) = true := by
      have harith : attempt + (m + 1) = attempt + 1 + m := by omega
      rwa [harith] at hok
    have harith2 : attempt + 1 + m + 1 = attempt + (m + 1) + 1 := by omega
    rw [download_file]
    cases houtcome : outcome attempt with
    | netFail =>
      rw [houtcome] at h0
      simp only [dif_neg hguard]
      rw [← harith2]
      exact ih (attempt + 1) file hfail' hok' (by omega)
    | midFail bs =>
      simp only [dif_neg hguard]
      rw [← harith2]
      exact ih (attempt + 1) (some bs) hfail' hok' (by omega)
    | body bs =>
      rw [houtcome] at h0
      cases hres : attemptResult hexdigest checksum bs with
      | ok u => simp [attemptOk, hres] at h0
      | error e =>
        simp only [hres, dif_neg hguard]
        rw [← harith2]
        exact ih (attempt + 1) (some bs) hfail' hok' (by omega)

/-- Helper: when every attempt fails, the loop makes attempts until the
counter passes `maxRetries` and then returns the permanent error with
exactly `maxRetries + 1` attempts made. -/
theorem download_file_err (outcome : Nat → AttemptOutcome)
    (hexdigest : List Nat → String) (checksum : Option String)
    (maxRetries : Nat) : ∀ (d attempt : Nat) (file : Option (List Nat)),
    maxRetries - attempt = d → attempt ≤ maxRetries →
    (∀ i, attemptOk hexdigest checksum (outcome i) = false) →
    ∃ e, (download_file outcome hexdigest checksum maxRetries attempt file).1 =
      .error (e, maxRetries + 1) := by
  intro d
  induction d with
  | zero =>
    intro attempt file hd hle hfail
    have hattempt : attempt = maxRetries := by omega
    have hguard : maxRetries < attempt + 1 := by omega
    rw [download_file]
    cases houtcome : outcome attempt with
    | netFail => exact ⟨.requestError, by simp [dif_pos hguard, hattempt]⟩
    | midFail bs => exact ⟨.requestError, by simp [dif_pos hguard, hattempt]⟩
    | body bs =>
      have := hfail attempt
      rw [houtcome] at this
      cases hres : attemptResult hexdigest checksum bs with
      | ok u => simp [attemptOk, hres] at this
      | error e => exact ⟨e, by simp [hres, dif_pos hguard, hattempt]⟩
  | succ m ih =>
    intro attempt file hd hle hfail
    have hguard : ¬ maxRetries < attempt + 1 := by omega
    rw [download_file]
    cases houtcome : outcome attempt with
    | netFail =>
      simp only [dif_neg hguard]
      exact ih (attempt + 1) file (by omega) (by omega) hfail
    | midFail bs =>
      simp only [dif_neg hguard]
      exact ih (attempt + 1) (some bs) (by omega) (by omega) hfail
    | body bs =>
      have := hfail attempt
      rw [houtcome] at this
      cases hres : attemptResult hexdigest checksum bs with
      | ok u => simp [attemptOk, hres] at this
      | error e =>
        simp only [hres, dif_neg hguard]
        exact ih (attempt + 1) (some bs) (by omega) (by omega) hfail

/-- C5: for every `maxRetries ≥ 0`, if the transport fails transiently on
exactly the first `k < maxRetries` attempts and then succeeds,
`download_file` returns success after exactly `k + 1` attempts; if every
attempt fails, it makes exactly `maxRetries + 1` attempts and then raises
a permanent `ExportDownloadError` wrapping the last cause. -/
theorem C5_retry_budget (outcome : Nat → AttemptOutcome)
    (hexdigest : List Nat → String) (checksum : Option String)
    (maxRetries k : Nat) (file : Option (List Nat)) :
    (k < maxRetries →
      (∀ i, i < k → attemptOk hexdigest checksum (outcome i) = false) →
      attemptOk hexdigest checksum (outcome k) = true →
      (download_file outcome hexdigest checksum maxRetries 0 file).1 =
        .ok (k + 1)) ∧
    ((∀ i, attemptOk hexdigest checksum (outcome i) = false) →
      ∃ e, (download_file outcome hexdigest checksum maxRetries 0 file).1 =
        .error (e, maxRetries + 1)) := by
  constructor
  · intro hk hfail hok
    have := download_file_ok outcome hexdigest checksum maxRetries k 0 file
      (by simpa using hfail) (by simpa using hok) (by omega)
    simpa using this
  · intro hfail
    exact download_file_err outcome hexdigest checksum maxRetries
      (maxRetries - 0) 0 file rfl (Nat.zero_le _) hfail

/-- Witness for C5: with budget 3, one transient failure then a clean body
gives success in 2 attempts, and a transport that always fails gives a
permanent error after 4 attempts. -/
theorem C5_retry_budget_witness :
    (download_file (fun i => if i < 1 then .netFail else .body [7])
        (fun _ => "") none 3 0 none).1 = .ok (1 + 1) ∧
    ∃ e, (download_file (fun _ => .netFail) (fun _ => "") none 3 0 none).1 =
      .error (e, 3 + 1) :=
  ⟨(C5_retry_budget (fun i => if i < 1 then .netFail else .body [7])
      (fun _ => "") none 3 1 none).1 (by omega)
      (fun i hi => by interval_cases i; rfl) rfl,
   (C5_retry_budget (fun _ => .netFail) (fun _ => "") none 3 1 none).2
      (fun i => rfl)⟩

/-- C6: for every download with a supplied (non-empty) expected checksum,
the hex digest computed over exactly the downloaded bytes is compared
case-insensitively after the stream completes: the attempt succeeds
exactly when the digests agree up to case; on disagreement it raises the
`ExportDownloadError` recording both digests, and that error is
retryable — with budget left, the engine retries instead of failing. -/
theorem C6_checksum_case_insensitive (hexdigest : List Nat → String)
    (c : String) (bs : List Nat) (outcome : Nat → AttemptOutcome)
    (maxRetries attempt : Nat) (file : Option (List Nat)) (hc : c ≠ "") :
    (attemptResult hexdigest (some c) bs = .ok () ↔
      (hexdigest bs).toLower = c.toLower) ∧
    ((hexdigest bs).toLower ≠ c.toLower →
      attemptResult hexdigest (some c) bs =
        .error (.checksumMismatch c (hexdigest bs))) ∧
    (outcome attempt = .body bs → (hexdigest bs).toLower ≠ c.toLower →
      attempt + 1 ≤ maxRetries →
      download_file outcome hexdigest (some c) maxRetries attempt file =
        download_file outcome hexdigest (some c) maxRetries (attempt + 1)
          (some bs)) := by
  have hE : c.isEmpty = false := by
    cases hE2 : c.isEmpty with
    | false => rfl
    | true => exact absurd ((String.isEmpty_iff c).mp hE2) hc
  have htruthy : truthy (some c) = true := by simp [truthy, hE]
  refine ⟨?_, ?_, ?_⟩
  · constructor
    · intro h
      by_contra hne
      simp [attemptResult, htruthy, hne] at h
    · intro h
      simp [attemptResult, htruthy, h]
  · intro hne
    simp [attemptResult, htruthy, hne]
  · intro houtcome hne hle
    have hres : attemptResult hexdigest (some c) bs =
        .error (.checksumMismatch c (hexdigest bs)) := by
      simp [attemptResult, htruthy, hne]
    have hguard : ¬ maxRetries < attempt + 1 := by omega
    rw [download_file]
    simp [houtcome, hres, hguard]

/-- Witness for C6 at a concrete digest/checksum pair differing only in
case. -/
theorem C6_checksum_case_insensitive_witness :
    (attemptResult (fun _ => "DeadBeef") (some "deadbeef") [1] = .ok () ↔
      ((fun (_ : List Nat) => "DeadBeef") [1]).toLower = "deadbeef".toLower) ∧
    (((fun (_ : List Nat) => "DeadBeef") [1]).toLower ≠ "deadbeef".toLower →
      attemptResult (fun _ => "DeadBeef") (some "deadbeef") [1] =
        .error (.checksumMismatch "deadbeef"
          ((fun (_ : List Nat) => "DeadBeef") [1]))) ∧
    ((fun (_ : Nat) => AttemptOutcome.body [1]) 0 = .body [1] →
      ((fun (_ : List Nat) => "DeadBeef") [1]).toLower ≠ "deadbeef".toLower →
      0 + 1 ≤ 2 →
      download_file (fun _ => .body [1]) (fun _ => "DeadBeef")
          (some "deadbeef") 2 0 none =
        download_file (fun _ => .body [1]) (fun _ => "DeadBeef")
          (some "deadbeef") 2 (0 + 1) (some [1])) :=
  C6_checksum_case_insensitive (fun _ => "DeadBeef") "deadbeef" [1]
    (fun _ => .body [1]) 2 0 none (by decide)

/-- Helper: whenever the retry loop returns success, the destination's
final content is exactly the full body streamed by the successful
attempt. -/
theorem download_file_content (outcome : Nat → AttemptOutcome)
    (hexdigest : List Nat → String) (checksum : Option String)
    (maxRetries : Nat) : ∀ (d attempt : Nat) (file : Option (List Nat))
    (n : Nat) (fs : Option (List Nat)),
    maxRetries - attempt = d →
    download_file outcome hexdigest checksum maxRetries attempt file =
      (.ok n, fs) →
    ∃ bs, outcome (n - 1) = .body bs ∧ fs = some bs ∧
      attemptResult hexdigest checksum bs = .ok () := by
  intro d
  induction d with
  | zero =>
    intro attempt file n fs hd h
    have hguard : maxRetries < attempt + 1 := by omega
    rw [download_file] at h
    split at h
    · rw [dif_pos hguard] at h; simp at h
    · rw [dif_pos hguard] at h; simp at h
    · rename_i bs houtcome
      split at h
      · rename_i u hres
        simp only [Prod.mk.injEq, Except.ok.injEq] at h
        refine ⟨bs, ?_, h.2.symm, ?_⟩
        · have hn : n - 1 = attempt := by omega
          rw [hn, houtcome]
        · cases u; exact hres
      · rw [dif_pos hguard] at h; simp at h
  | succ m ih =>
    intro attempt file n fs hd h
    have hguard : ¬ maxRetries < attempt + 1 := by omega
    rw [download_file] at h
    split at h
    · rw [dif_neg hguard] at h
      exact ih (attempt + 1) file n fs (by omega) h
    · rw [dif_neg hguard] at h
      rename_i bs houtcome
      exact ih (attempt + 1) (some bs) n fs (by omega) h
    · rename_i bs houtcome
      split at h
      · rename_i u hres
        simp only [Prod.mk.injEq, Except.ok.injEq] at h
        refine ⟨bs, ?_, h.2.symm, ?_⟩
        · have hn : n - 1 = attempt := by omega
          rw [hn, houtcome]
        · cases u; exact hres
      · rw [dif_neg hguard] at h
        exact ih (attempt + 1) (some bs) n fs (by omega) h

/-- C10: every attempt of `download_file` opens the destination in
truncating `"wb"` mode, so on successful return after `n` attempts the
destination's content is exactly the bytes streamed by the final,
successful attempt (and that content passed the checksum check), with no
residue from earlier failed attempts. -/
theorem C10_truncating_writes (outcome : Nat → AttemptOutcome)
    (hexdigest : List Nat → String) (checksum : Option String)
    (maxRetries : Nat) (file : Option (List Nat)) (n : Nat)
    (fs : Option (List Nat))
    (h : download_file outcome hexdigest checksum maxRetries 0 file =
      (.ok n, fs)) :
    ∃ bs, outcome (n - 1) = .body bs ∧ fs = some bs ∧
      attemptResult hexdigest checksum bs = .ok () :=
  download_file_content outcome hexdigest checksum maxRetries
    (maxRetries - 0) 0 file n fs rfl h

/-- Witness for C10: a run whose first attempt leaves a partial write and
whose second attempt streams `[9]` ends with exactly `[9]` on disk. -/
theorem C10_truncating_writes_witness :
    ∃ bs, (fun i => if i = 0 then AttemptOutcome.midFail [1, 2]
        else AttemptOutcome.body [9]) (2 - 1) = .body bs ∧
      (some [9] : Option (List Nat)) = some bs ∧
      attemptResult (fun _ => "") none bs = .ok () :=
  C10_truncating_writes
    (fun i => if i = 0 then AttemptOutcome.midFail [1, 2]
      else AttemptOutcome.body [9])
    (fun _ => "") none 3 none 2 (some [9])
    (by simp [download_file, attemptResult, truthy])

/-! ## Request timeouts

Each HTTP call site of the core, with the `timeout` argument it passes to
`requests` (`none` when the call passes no `timeout`, in which case
`requests` waits without bound). -/

/-- `export.py` line 97: `session.get(url, params=params, timeout=60)` in
`graph_get`, used for every list-endpoint page fetch of `iter_exports`
and `list_files`. -/
def graph_get_timeout : Option Nat := some 60

/-- `export.py` line 168: `session.get(download_url, stream=True,
timeout=120)` in `download_file`. -/
def export_download_timeout : Option Nat := some 120

/-- `workplace_export.py` line 50: `session.get(url, params=params)` in
`paged_get` — no `timeout` argument is passed. -/
def wp_paged_get_timeout : Option Nat := none

/-- `workplace_export.py` line 90: `session.get(url)` in
`fetch_tenant_id` — no `timeout` argument is passed. -/
def wp_fetch_tenant_timeout : Option Nat := none

/-- `workplace_export.py` line 146: `session.get(url, params={...})` in
`fetch_export_job` — no `timeout` argument is passed. -/
def wp_fetch_export_job_timeout : Option Nat := none

/-- `workplace_export.py` line 181: `requests.get(download_url,
stream=True, timeout=60)` in `download_file`. -/
def wp_download_timeout : Option Nat := some 60

/-- `workplace_export.py` line 72: `requests.get(url, params={...},
timeout=30)` in `fetch_app_token`. -/
def fetch_app_token_timeout : Option Nat := some 30

/-- All list-endpoint page fetches and file-download streams issued by
the core, with the timeout each passes. -/
def coreRequestTimeouts : List (String × Option Nat) :=
  [("export.graph_get", graph_get_timeout),
   ("export.download_file", export_download_timeout),
   ("workplace.paged_get", wp_paged_get_timeout),
   ("workplace.fetch_tenant_id", wp_fetch_tenant_timeout),
   ("workplace.fetch_export_job", wp_fetch_export_job_timeout),
   ("workplace.download_file", wp_download_timeout)]

/-- A bounded timeout in the 30-120 second range. -/
def boundedTimeout : Option Nat → Bool
  | none => false
  | some n => decide (30 ≤ n) && decide (n ≤ 120)

/-- Counterexample to C7 as stated: not every core request is made with a
mandatory bounded timeout — `workplace_export.py`'s list-endpoint fetches
(`paged_get`, `fetch_tenant_id`, `fetch_export_job`) pass no `timeout`,
so those requests can wait unboundedly. -/
theorem C7_counterexample :
    (coreRequestTimeouts.all fun p => boundedTimeout p.2) = false ∧
    wp_paged_get_timeout = none := by
  constructor <;> rfl

/-- C7 (amended): the requests issued by `export.py` all carry bounded
timeouts in the 30-120s range (60s for list-page fetches in `graph_get`,
120s for download streams), as do `workplace_export.py`'s file-download
stream (60s) and token fetch (30s); but `workplace_export.py`'s
list-endpoint fetches (`paged_get`, `fetch_tenant_id`,
`fetch_export_job`) are issued with no timeout and can wait unboundedly. -/
theorem C7_timeouts_amended :
    boundedTimeout graph_get_timeout = true ∧
    boundedTimeout export_download_timeout = true ∧
    boundedTimeout wp_download_timeout = true ∧
    boundedTimeout fetch_app_token_timeout = true ∧
    wp_paged_get_timeout = none ∧
    wp_fetch_tenant_timeout = none ∧
    wp_fetch_export_job_timeout = none := by
  refine ⟨rfl, rfl, rfl, rfl, rfl, rfl, rfl⟩

/-! ## Orchestrator of `export.py` (`process_exports`, lines 201-248) -/

/-- A raw file record from the `/files` listing, with the optional JSON
fields `process_exports` and `download_export_files` read. -/
structure FileInfo where
  id : Option String
  file_name : Option String
  download_url : Option String
  checksum : Option String
  sha256 : Option String
deriving Repr, DecidableEq

/-- A raw export-job record from the `/diy_exports` listing; claims only
concern records carrying an `id`, so `id` is a plain string. -/
structure ExportRec where
  id : String
  status : Option String
deriving Repr, DecidableEq

/-- `export.py` line 226: `file_info.get("file_name") or
f"{file_info.get('id', 'file')}"`. -/
def fileNameOf (f : FileInfo) : String :=
  if truthy f.file_name then f.file_name.getD "" else f.id.getD "file"

/-- `export.py` line 228: `file_info.get("checksum") or
file_info.get("sha256")`. -/
def checksumOf (f : FileInfo) : Option String :=
  if truthy f.checksum then f.checksum else f.sha256

/-- Abstract collaborators of `process_exports`: the `/files` listing per
export id (which may raise a `GraphAPIError`), the download engine's
overall outcome per URL and checksum (`error` is a permanent
`ExportDownloadError`), and which destination paths already exist on
disk before the run. -/
structure EWorld where
  listFiles : String → Except String (List FileInfo)
  download : String → Option String → Except String Unit
  fileExists : String → Bool

/-- Observable steps of a `process_exports` run. -/
inductive EEvent where
  | skippedStatus (exportId : String)
  | listingFailed (exportId : String)
  | listedFiles (exportId : String)
  | skippedNoUrl (fileName : String)
  | skippedExists (dest : String)
  | startedDownload (url dest : String)
  | saved (dest : String)
deriving Repr, DecidableEq

/-- The per-file loop of `process_exports` (`export.py` lines 225-248):
resolve the file name, skip when `download_url` is falsy, skip when the
destination exists (`written` carries paths created earlier in this run),
otherwise call `download_file`; a permanent download error propagates out
of the loop (there is no `try` around the call). -/
def processFiles (w : EWorld) (exportDir : String) :
    List FileInfo → List String → Except String Unit × List EEvent
  | [], _ => (.ok (), [])
  | f :: rest, written =>
    let name := fileNameOf f
    if !truthy f.download_url then
      let pr := processFiles w exportDir rest written
      (pr.1, .skippedNoUrl name :: pr.2)
    else
      let dest := exportDir ++ "/" ++ name
      if w.fileExists dest || written.contains dest then
        let pr := processFiles w exportDir rest written
        (pr.1, .skippedExists dest :: pr.2)
      else
        match w.download (f.download_url.getD "") (checksumOf f) with
        | .error e => (.error e, [.startedDownload (f.download_url.getD "") dest])
        | .ok _ =>
          let pr := processFiles w exportDir rest (dest :: written)
          (pr.1, .startedDownload (f.download_url.getD "") dest ::
            .saved dest :: pr.2)

/-- The per-job body of `process_exports` (`export.py` lines 216-248):
skip the job when its status is not `"completed"`, else list its files
(a `GraphAPIError` raised by the listing propagates — there is no `try`)
and run the per-file loop. -/
def processJob (w : EWorld) (tenantOutput : String) (ex : ExportRec) :
    Except String Unit × List EEvent :=
  if ex.status ≠ some "completed" then (.ok (), [.skippedStatus ex.id])
  else
    match w.listFiles ex.id with
    | .error e => (.error e, [.listingFailed ex.id])
    | .ok files =>
      let pr := processFiles w (tenantOutput ++ "/" ++ ex.id) files []
      (pr.1, .listedFiles ex.id :: pr.2)

/-- The job loop of `process_exports` (`export.py` lines 208-248) over
the records produced by `iter_exports`: any exception raised while
processing a job propagates immediately (caught only in `main`, which
exits 1), so later jobs are not attempted. -/
def process_exports (w : EWorld) (outputDir : String) :
    List ExportRec → Except String Unit × List EEvent
  | [] => (.ok (), [])
  | ex :: rest =>
    let pr := processJob w outputDir ex
    match pr.1 with
    | .error e => (.error e, pr.2)
    | .ok _ =>
      let pr2 := process_exports w outputDir rest
      (pr2.1, pr.2 ++ pr2.2)

/-! ## Orchestrator of `workplace_export.py` (`download_export_files`,
lines 192-267) -/

/-- The export-job record fetched by `fetch_export_job`, reduced to the
fields `download_export_files` reads: the truthiness of `is_completed`
and the `id` of the `company_job` sub-record (`none` when the record or
its id is missing). -/
structure WExportJob where
  is_completed : Bool
  company_job_id : Option String
deriving Repr, DecidableEq

/-- Abstract collaborators of `download_export_files`: the fetched export
job, the user DIY job ids from `fetch_user_jobs`, the `/files` listing
per job id, the per-URL outcome of `workplace_export.py`'s `download_file`
(`error` is the `ExportClientError` raised on a non-2xx), and which
destination paths already exist on disk. -/
structure WWorld where
  export_job : WExportJob
  user_jobs : List (Option String)
  files : String → List FileInfo
  download : String → Except String Unit
  fileExists : String → Bool

/-- Observable steps of a `download_export_files` run. -/
inductive WEvent where
  | warnedIncomplete
  | noTargets
  | noFiles (jobId : String)
  | jobHeader (jobType jobId : String)
  | skippedNoUrl (fileName : String)
  | requested (url : String)
  | wrote (dest : String) (existedBefore : Bool)
deriving Repr, DecidableEq

/-- `workplace_export.py` line 248: `file_info.get("file_name") or
f"file_{file_info.get('id')}"` (Python renders a missing id as `None`). -/
def wFileNameOf (f : FileInfo) : String :=
  if truthy f.file_name then f.file_name.getD ""
  else "file_" ++ (match f.id with | some i => i | none => "None")

/-- The per-file loop of `download_export_files` (`workplace_export.py`
lines 247-263): compute the destination, skip when `download_url` is
missing, otherwise call `download_file(download_url, dest)` — which
issues the GET and, on a 2xx, opens `dest` with `open(dest, "wb")` and
writes the stream, with no existence check; an `ExportClientError`
propagates out of the loop. -/
def processWFiles (w : WWorld) (outputDir : String) :
    List FileInfo → Except String Unit × List WEvent
  | [] => (.ok (), [])
  | f :: rest =>
    let name := wFileNameOf f
    let dest := outputDir ++ "/" ++ name
    if !truthy f.download_url then
      let pr := processWFiles w outputDir rest
      (pr.1, .skippedNoUrl name :: pr.2)
    else
      let url := f.download_url.getD ""
      match w.download url with
      | .error e => (.error e, [.requested url])
      | .ok _ =>
        let pr := processWFiles w outputDir rest
        (pr.1, .requested url :: .wrote dest (w.fileExists dest) :: pr.2)

/-- The download targets collected by `download_export_files`
(`workplace_export.py` lines 210-220): the company job when its id is
truthy, then (when `include_user_jobs`) every user job with a truthy id. -/
def downloadTargets (w : WWorld) (includeUserJobs : Bool) :
    List (String × String) :=
  (if truthy w.export_job.company_job_id then
    [("Company", w.export_job.company_job_id.getD "")] else []) ++
  (if includeUserJobs then
    w.user_jobs.filterMap (fun j =>
      if truthy j then some ("User", j.getD "") else none)
  else [])

/-- The per-target loop of `download_export_files` (`workplace_export.py`
lines 230-263): list the target's files, report and continue when there
are none, else run the per-file loop; its errors propagate. -/
def processWJobs (w : WWorld) (outputDir : String) :
    List (String × String) → Except String Unit × List WEvent
  | [] => (.ok (), [])
  | (jobType, jobId) :: rest =>
    let files := w.files jobId
    if files.isEmpty then
      let pr := processWJobs w outputDir rest
      (pr.1, .noFiles jobId :: pr.2)
    else
      let pr1 := processWFiles w outputDir files
      match pr1.1 with
      | .error e => (.error e, .jobHeader jobType jobId :: pr1.2)
      | .ok _ =>
        let pr := processWJobs w outputDir rest
        (pr.1, .jobHeader jobType jobId :: (pr1.2 ++ pr.2))

/-- Embedding of `download_export_files` (`workplace_export.py` lines
192-267): warn — but proceed — when the export job is not marked
complete, collect the company/user targets, report when there are none,
else download every target's files. -/
def download_export_files (w : WWorld) (outputDir : String)
    (includeUserJobs : Bool) : Except String Unit × List WEvent :=
  let warn : List WEvent :=
    if w.export_job.is_completed then [] else [.warnedIncomplete]
  let targets := downloadTargets w includeUserJobs
  if targets.isEmpty then (.ok (), warn ++ [.noTargets])
  else
    let pr := processWJobs w outputDir targets
    (pr.1, warn ++ pr.2)

/-! ## Concrete worlds used by counterexamples and witnesses -/

/-- A world whose `/files` listing raises a `GraphAPIError` for export
`J2` and succeeds with one downloadable file for every other export. -/
def errListWorld : EWorld where
  listFiles := fun jid =>
    if jid = "J2" then .error "api error"
    else .ok [⟨some "F", some ("f-" ++ jid), some ("http://" ++ jid), none, none⟩]
  download := fun _ _ => .ok ()
  fileExists := fun _ => false

/-- Three completed export jobs, the second of which `errListWorld` fails
to list. -/
def threeJobs : List ExportRec :=
  [⟨"J1", some "completed"⟩, ⟨"J2", some "completed"⟩, ⟨"J3", some "completed"⟩]

/-- A world where the destination `out/J1/a.csv` already exists on disk. -/
def existsWorld : EWorld where
  listFiles := fun _ => .ok []
  download := fun _ _ => .ok ()
  fileExists := fun p => p == "out/J1/a.csv"

/-- A world with nothing on disk and an always-succeeding transport. -/
def plainWorld : EWorld where
  listFiles := fun _ => .ok []
  download := fun _ _ => .ok ()
  fileExists := fun _ => false

/-- A completed workplace export job with one company file whose
destination `out/a.csv` already exists on disk. -/
def overwriteWorld : WWorld where
  export_job := ⟨true, some "CJ"⟩
  user_jobs := []
  files := fun _ => [⟨some "F", some "a.csv", some "http://u", none, none⟩]
  download := fun _ => .ok ()
  fileExists := fun p => p == "out/a.csv"

/-- A workplace export job that is not marked complete, with one company
file. -/
def incompleteWorld : WWorld where
  export_job := ⟨false, some "CJ"⟩
  user_jobs := []
  files := fun _ => [⟨some "F", some "a.csv", some "http://u", none, none⟩]
  download := fun _ => .ok ()
  fileExists := fun _ => false

/-- A plain workplace world used for skip-semantics witnesses. -/
def plainWWorld : WWorld where
  export_job := ⟨true, none⟩
  user_jobs := []
  files := fun _ => []
  download := fun _ => .ok ()
  fileExists := fun _ => false

/-! ## C1: failure isolation -/

/-- Counterexample to C1 as stated: with three completed jobs where job
`J2`'s file listing raises an API error, `process_exports` raises (its
result is the error) and never attempts job `J3`, though it did process
job `J1`. -/
theorem C1_counterexample :
    (process_exports errListWorld "out" threeJobs).1 = .error "api error" ∧
    EEvent.listedFiles "J1" ∈ (process_exports errListWorld "out" threeJobs).2 ∧
    EEvent.listedFiles "J3" ∉ (process_exports errListWorld "out" threeJobs).2 := by
  decide

/-- C1 (amended): the orchestrator has no per-file or per-job failure
isolation: the first error raised while processing a job — an API error
from the job's file listing or a permanent download failure — propagates
out of `process_exports` unchanged (it is caught only in `main`, which
exits 1), and the remaining jobs are not attempted: the run's event log
is exactly the failing job's log. -/
theorem C1_aborts_on_first_error (w : EWorld) (outputDir : String)
    (ex : ExportRec) (rest : List ExportRec) (e : String) (l : List EEvent)
    (h : processJob w outputDir ex = (.error e, l)) :
    process_exports w outputDir (ex :: rest) = (.error e, l) := by
  simp [process_exports, h]

/-- Witness for C1 (amended) at a concrete failing job followed by a job
that is then never attempted. -/
theorem C1_aborts_on_first_error_witness :
    process_exports errListWorld "out"
        [⟨"J2", some "completed"⟩, ⟨"J3", some "completed"⟩] =
      (.error "api error", [EEvent.listingFailed "J2"]) :=
  C1_aborts_on_first_error errListWorld "out" ⟨"J2", some "completed"⟩
    [⟨"J3", some "completed"⟩] "api error" [EEvent.listingFailed "J2"]
    (by decide)

/-! ## C4: skip-on-exists -/

/-- Counterexample to C4 as stated: in `download_export_files` the
destination `out/a.csv` already exists, yet the run issues the network
GET for the file and opens the existing destination with `open(dest,
"wb")`, truncating and overwriting it. -/
theorem C4_counterexample :
    WEvent.requested "http://u" ∈
      (download_export_files overwriteWorld "out" true).2 ∧
    WEvent.wrote "out/a.csv" true ∈
      (download_export_files overwriteWorld "out" true).2 := by
  decide

/-- C4 (amended): in `export.py`'s `process_exports` a file whose
destination path already exists is treated as success and skipped — the
run never starts a download to that destination and never writes it, so
re-running is idempotent there; `workplace_export.py`'s
`download_export_files`, however, performs no existence check and
overwrites an existing destination (see the counterexample). -/
theorem C4_skip_on_exists (w : EWorld) (exportDir : String) :
    ∀ (files : List FileInfo) (written : List String) (dest u : String),
    w.fileExists dest = true →
    EEvent.startedDownload u dest ∉ (processFiles w exportDir files written).2 ∧
    EEvent.saved dest ∉ (processFiles w exportDir files written).2 := by
  intro files
  induction files with
  | nil => intro written dest u hex; simp [processFiles]
  | cons f rest ih =>
    intro written dest u hex
    by_cases hurl : truthy f.download_url = true
    · by_cases hskip : (w.fileExists (exportDir ++ "/" ++ fileNameOf f) ||
          written.contains (exportDir ++ "/" ++ fileNameOf f)) = true
      · have hskipP : w.fileExists (exportDir ++ "/" ++ fileNameOf f) = true ∨
            (exportDir ++ "/" ++ fileNameOf f) ∈ written := by
          simpa using hskip
        simpa [processFiles, hurl, hskipP] using ih written dest u hex
      · have hskipN : ¬ (w.fileExists (exportDir ++ "/" ++ fileNameOf f) = true ∨
            (exportDir ++ "/" ++ fileNameOf f) ∈ written) := by
          simpa using hskip
        have hfe : w.fileExists (exportDir ++ "/" ++ fileNameOf f) = false := by
          rcases hb : w.fileExists (exportDir ++ "/" ++ fileNameOf f) with _ | _
          · rfl
          · exact absurd (Or.inl hb) hskipN
        have hne : dest ≠ exportDir ++ "/" ++ fileNameOf f := by
          intro hEq
          rw [hEq] at hex
          rw [hex] at hfe
          exact Bool.true_eq_false.mp hfe
        cases hdl : w.download (f.download_url.getD "") (checksumOf f) with
        | error e =>
          simp [processFiles, hurl, hskipN, hdl, hne]
        | ok v =>
          simpa [processFiles, hurl, hskipN, hdl, hne] using
            ih ((exportDir ++ "/" ++ fileNameOf f) :: written) dest u hex
    · have hurl' : truthy f.download_url = false := by simpa using hurl
      simpa [processFiles, hurl'] using ih written dest u hex

/-- Witness for C4 (amended): with `out/J1/a.csv` already on disk, a run
over a file resolving to that destination neither starts its download
nor writes it. -/
theorem C4_skip_on_exists_witness :
    EEvent.startedDownload "http://u" "out/J1/a.csv" ∉
      (processFiles existsWorld "out/J1"
        [⟨some "F", some "a.csv", some "http://u", none, none⟩] []).2 ∧
    EEvent.saved "out/J1/a.csv" ∉
      (processFiles existsWorld "out/J1"
        [⟨some "F", some "a.csv", some "http://u", none, none⟩] []).2 :=
  C4_skip_on_exists existsWorld "out/J1"
    [⟨some "F", some "a.csv", some "http://u", none, none⟩] []
    "out/J1/a.csv" "http://u" (by decide)

/-! ## C8: missing download_url is a skip -/

/-- C8: in both orchestrators a file record whose `download_url` is
missing produces a skip: no exception is raised, nothing is downloaded or
written for that record, and the remaining files of the job are processed
exactly as they would have been without it — the run's result is the
remaining files' result and its log is the skip event followed by their
log. -/
theorem C8_skip_missing_url (w : EWorld) (ww : WWorld) (dir : String)
    (f : FileInfo) (rest : List FileInfo) (written : List String)
    (h : truthy f.download_url = false) :
    processFiles w dir (f :: rest) written =
      ((processFiles w dir rest written).1,
        EEvent.skippedNoUrl (fileNameOf f) ::
          (processFiles w dir rest written).2) ∧
    processWFiles ww dir (f :: rest) =
      ((processWFiles ww dir rest).1,
        WEvent.skippedNoUrl (wFileNameOf f) ::
          (processWFiles ww dir rest).2) := by
  constructor <;> simp [processFiles, processWFiles, h]

/-- Witness for C8 at a concrete record with no `download_url` followed
by a downloadable one. -/
theorem C8_skip_missing_url_witness :
    processFiles plainWorld "out/J1"
        [⟨some "F2", some "b.csv", none, none, none⟩,
         ⟨some "F3", some "c.csv", some "http://c", none, none⟩] [] =
      ((processFiles plainWorld "out/J1"
          [⟨some "F3", some "c.csv", some "http://c", none, none⟩] []).1,
        EEvent.skippedNoUrl
            (fileNameOf ⟨some "F2", some "b.csv", none, none, none⟩) ::
          (processFiles plainWorld "out/J1"
            [⟨some "F3", some "c.csv", some "http://c", none, none⟩] []).2) ∧
    processWFiles plainWWorld "out/J1"
        [⟨some "F2", some "b.csv", none, none, none⟩,
         ⟨some "F3", some "c.csv", some "http://c", none, none⟩] =
      ((processWFiles plainWWorld "out/J1"
          [⟨some "F3", some "c.csv", some "http://c", none, none⟩]).1,
        WEvent.skippedNoUrl
            (wFileNameOf ⟨some "F2", some "b.csv", none, none, none⟩) ::
          (processWFiles plainWWorld "out/J1"
            [⟨some "F3", some "c.csv", some "http://c", none, none⟩]).2) :=
  C8_skip_missing_url plainWorld plainWWorld "out/J1"
    ⟨some "F2", some "b.csv", none, none, none⟩
    [⟨some "F3", some "c.csv", some "http://c", none, none⟩] [] (by decide)

/-! ## C9: non-completed jobs -/

/-- Counterexample to C9 as stated: `download_export_files` is handed a
job whose record is not marked complete; it merely warns and still
downloads the job's file — the job is not skipped. -/
theorem C9_counterexample :
    WEvent.warnedIncomplete ∈
      (download_export_files incompleteWorld "out" true).2 ∧
    WEvent.requested "http://u" ∈
      (download_export_files incompleteWorld "out" true).2 ∧
    (download_export_files incompleteWorld "out" true).1 = .ok () := by
  decide

/-- C9 (amended): `export.py`'s `process_exports` skips a job whose
status is not `"completed"` entirely — it lists none of its files and
downloads nothing, recording only the skip, and the run continues with
the remaining jobs unchanged; `workplace_export.py`'s
`download_export_files` instead only warns when `is_completed` is falsy
and still downloads the job's files (see the counterexample). -/
theorem C9_status_skip (w : EWorld) (outputDir : String) (ex : ExportRec)
    (rest : List ExportRec) (h : ex.status ≠ some "completed") :
    processJob w outputDir ex = (.ok (), [.skippedStatus ex.id]) ∧
    process_exports w outputDir (ex :: rest) =
      ((process_exports w outputDir rest).1,
        EEvent.skippedStatus ex.id :: (process_exports w outputDir rest).2) := by
  have h1 : processJob w outputDir ex = (.ok (), [.skippedStatus ex.id]) := by
    simp [processJob, h]
  exact ⟨h1, by simp [process_exports, h1]⟩

/-- Witness for C9 (amended) at a concrete pending job. -/
theorem C9_status_skip_witness :
    processJob plainWorld "out" ⟨"J9", some "pending"⟩ =
      (.ok (), [.skippedStatus "J9"]) ∧
    process_exports plainWorld "out"
        [⟨"J9", some "pending"⟩, ⟨"J1", some "completed"⟩] =
      ((process_exports plainWorld "out" [⟨"J1", some "completed"⟩]).1,
        EEvent.skippedStatus "J9" ::
          (process_exports plainWorld "out" [⟨"J1", some "completed"⟩]).2) :=
  C9_status_skip plainWorld "out" ⟨"J9", some "pending"⟩
    [⟨"J1", some "completed"⟩] (by decide)
